import Mathlib

/-!
Verification of the vehicle dynamics and control subsystem of the
`sketchbook` repository (car-only simplification).

The development shallowly embeds the TypeScript sources:
  * `src/ts/vehicles/Car.ts` (`Car.update`, `Car.physicsPreStep`,
    `Car.onInputChange`, `Car.handleKeyboardEvent`, the car action table);
  * `src/ts/vehicles/Vehicle.ts` (`Vehicle.setPosition`,
    `Vehicle.applyEngineForce`, `Vehicle.setSteeringValue`,
    `Vehicle.setBrake`, `Vehicle.triggerAction`, `Vehicle.resetControls`).

JavaScript numbers are modelled as rationals (`ℚ`); the vector and
quaternion helpers of three.js / cannon-es used by the sources
(`Vector3.applyQuaternion`, `Vec3.dot/vadd/vsub/scale`,
`MathUtils.clamp`) are embedded by their defining formulas.
-/

/-- A 3-component vector over ℚ, standing for `THREE.Vector3` /
`CANNON.Vec3` (both are plain x,y,z records in the sources). -/
structure Vec3 where
  x : ℚ
  y : ℚ
  z : ℚ
deriving DecidableEq, Repr

namespace Vec3

/-- `CANNON.Vec3.dot`. -/
def dot (a b : Vec3) : ℚ := a.x * b.x + a.y * b.y + a.z * b.z

/-- `CANNON.Vec3.vadd`. -/
def vadd (a b : Vec3) : Vec3 := ⟨a.x + b.x, a.y + b.y, a.z + b.z⟩

/-- `CANNON.Vec3.vsub`. -/
def vsub (a b : Vec3) : Vec3 := ⟨a.x - b.x, a.y - b.y, a.z - b.z⟩

/-- `CANNON.Vec3.scale`. -/
def scale (k : ℚ) (a : Vec3) : Vec3 := ⟨k * a.x, k * a.y, k * a.z⟩

/-- The zero vector. -/
def zero : Vec3 := ⟨0, 0, 0⟩

theorem vadd_zero (a : Vec3) : vadd a zero = a := by
  simp [vadd, zero]

theorem vsub_zero (a : Vec3) : vsub a zero = a := by
  simp [vsub, zero]

theorem dot_vadd (a b c : Vec3) : dot (vadd a b) c = dot a c + dot b c := by
  simp [dot, vadd]; ring

theorem dot_vsub (a b c : Vec3) : dot (vsub a b) c = dot a c - dot b c := by
  simp [dot, vsub]; ring

theorem dot_scale (k : ℚ) (a b : Vec3) : dot (scale k a) b = k * dot a b := by
  simp [dot, scale]; ring

end Vec3

/-- A quaternion over ℚ, standing for `THREE.Quaternion` /
`CANNON.Quaternion` (x, y, z, w records in the sources). -/
structure Quat where
  x : ℚ
  y : ℚ
  z : ℚ
  w : ℚ
deriving DecidableEq, Repr

/-- `THREE.Vector3.applyQuaternion`, by its defining formula
`v' = v + 2w (u × v) + 2 u × (u × v)` with `u = (q.x, q.y, q.z)`.
(three.js assumes a unit quaternion, as does `Car.physicsPreStep`.) -/
def applyQuaternion (q : Quat) (v : Vec3) : Vec3 :=
  let tx := 2 * (q.y * v.z - q.z * v.y)
  let ty := 2 * (q.z * v.x - q.x * v.z)
  let tz := 2 * (q.x * v.y - q.y * v.x)
  ⟨v.x + q.w * tx + (q.y * tz - q.z * ty),
   v.y + q.w * ty + (q.z * tx - q.x * tz),
   v.z + q.w * tz + (q.x * ty - q.y * tx)⟩

/-- `Math.min` (kept as an explicit comparison so the kernel can
evaluate it). -/
def jsMin (a b : ℚ) : ℚ := if a ≤ b then a else b

/-- `Math.max` (kept as an explicit comparison so the kernel can
evaluate it). -/
def jsMax (a b : ℚ) : ℚ := if a ≤ b then b else a

theorem jsMin_eq_min (a b : ℚ) : jsMin a b = min a b := (min_def a b).symm

theorem jsMax_eq_max (a b : ℚ) : jsMax a b = max a b := (max_def a b).symm

/-- `THREE.MathUtils.clamp(value, lo, hi) = Math.max(lo, Math.min(value, hi))`. -/
def clamp (v lo hi : ℚ) : ℚ := jsMax lo (jsMin v hi)

theorem clamp_eq (v lo hi : ℚ) : clamp v lo hi = max lo (min v hi) := by
  rw [clamp, jsMin_eq_min, jsMax_eq_max]

/-- `Number.MAX_VALUE` (the largest finite double), exact value. -/
def numberMaxValue : ℚ := 2 ^ 1024 - 2 ^ 971

theorem clamp_le (v lo hi : ℚ) (h : lo ≤ hi) : clamp v lo hi ≤ hi := by
  rw [clamp_eq]
  exact max_le h (min_le_right _ _)

theorem le_clamp (v lo hi : ℚ) : lo ≤ clamp v lo hi := by
  rw [clamp_eq]
  exact le_max_left _ _

theorem clamp_nonneg (v hi : ℚ) : 0 ≤ clamp v 0 hi := le_clamp v 0 hi

/-- Modelled from the spec: `KeyBinding` (`src/ts/core/KeyBinding.ts` is not
part of the provided sources). Spec §3 InputState: "per-action boolean
(pressed) plus derived one-tick edge flags (justPressed, justReleased)";
`Vehicle.handleKeyboardEvent` additionally reads `eventCodes`, the list of
raw input codes the binding was constructed with (`new KeyBinding("KeyW")`
binds the single code `"KeyW"`, with all flags initially false). -/
structure KeyBinding where
  eventCodes : List String
  isPressed : Bool
  justPressed : Bool
  justReleased : Bool
deriving DecidableEq, Repr

/-- `new KeyBinding(code)`: one event code, all flags false. -/
def KeyBinding.mk1 (code : String) : KeyBinding := ⟨[code], false, false, false⟩

/-- A command issued to the external integrator / camera by the vehicle
methods (`Vehicle.applyEngineForce`, `Vehicle.setBrake`/`Car.setBrake`,
`Vehicle.setSteeringValue`, `Vehicle.toggleFirstPersonView`).  Recording
the calls keeps the side effects of the embedded methods observable. -/
inductive Cmd where
  | applyEngineForce (force : ℚ)
  | setBrake (brakeForce : ℚ)
  | setSteeringValue (val : ℚ)
  | toggleFirstPersonView
deriving DecidableEq, Repr

/-- The action table of `Car` (`Car.actions`, `Car.ts` lines 18-25), as an
association list in insertion order (JS `for...in` enumerates string keys
in insertion order).  The six bindings are parameters so that theorems can
quantify over the current input state. -/
def carActions (t r l ri hb ho : KeyBinding) : List (String × KeyBinding) :=
  [("throttle", t), ("reverse", r), ("left", l),
   ("right", ri), ("handbrake", hb), ("horn", ho)]

/-- The action table as constructed (`throttle: new KeyBinding("KeyW")`, ...). -/
def carActionsInit : List (String × KeyBinding) :=
  carActions (KeyBinding.mk1 "KeyW") (KeyBinding.mk1 "KeyS")
    (KeyBinding.mk1 "KeyA") (KeyBinding.mk1 "KeyD")
    (KeyBinding.mk1 "Space") (KeyBinding.mk1 "KeyH")

/-- The event codes bound in the car action table. -/
def carBoundCodes : List String := ["KeyW", "KeyS", "KeyA", "KeyD", "Space", "KeyH"]

/-- JS property lookup `this.actions[name]` on the action table. -/
def findAction : List (String × KeyBinding) → String → Option KeyBinding
  | [], _ => none
  | p :: ps, name => if p.1 = name then some p.2 else findAction ps name

/-- Property access `this.actions[name]` where a subsequent member access
faults when the entry is `undefined` (JS `TypeError`).  Errors are
modelled with `Except`. -/
def getAction (tbl : List (String × KeyBinding)) (name : String) :
    Except String KeyBinding :=
  match findAction tbl name with
  | some b => .ok b
  | none => .error ("undefined action: " ++ name)

/-- In-place mutation of the binding object stored under `name`
(`this.actions[name] = ...` / field writes through the reference). -/
def setAction (tbl : List (String × KeyBinding)) (name : String)
    (b : KeyBinding) : List (String × KeyBinding) :=
  tbl.map (fun p => if p.1 = name then (p.1, b) else p)

/-- `Car.onInputChange` (`Car.ts` lines 270-290).  `super.onInputChange()`
(`Vehicle.ts` lines 109-111) is a no-op.  The body then reads
`this.actions.throttle.justReleased`, `this.actions.reverse.justReleased`,
`this.actions.brake.justPressed`, `this.actions.brake.justReleased` and
`this.actions.view.justPressed`; an access on a missing entry faults.
Returns the list of commands issued when no access faults. -/
def carOnInputChange (tbl : List (String × KeyBinding)) :
    Except String (List Cmd) := do
  let t ← getAction tbl "throttle"
  let r ← getAction tbl "reverse"
  let c1 := if t.justReleased || r.justReleased then [Cmd.applyEngineForce 0] else []
  let b ← getAction tbl "brake"
  let c2 := if b.justPressed then [Cmd.setBrake 1000000] else []
  let c3 := if b.justReleased then [Cmd.setBrake 0] else []
  let v ← getAction tbl "view"
  let c4 := if v.justPressed then [Cmd.toggleFirstPersonView] else []
  pure (c1 ++ c2 ++ c3 ++ c4)

/-- `Car.handleKeyboardEvent` (`Car.ts` lines 292-300): indexes the action
table by the raw key `code`; when the entry exists sets only `isPressed`,
otherwise does nothing.  It never calls `onInputChange` nor the base-class
handler, so the command list is always empty. -/
def carHandleKeyboardEvent (tbl : List (String × KeyBinding)) (code : String)
    (pressed : Bool) : List (String × KeyBinding) × List Cmd :=
  match findAction tbl code with
  | some b => (setAction tbl code { b with isPressed := pressed }, [])
  | none => (tbl, [])

/-- `Vehicle.triggerAction` (`Vehicle.ts` lines 163-178), with
`Car.onInputChange` as the `onInputChange` observer (a `Car` is the only
concrete vehicle).  Mutations preceding the observer call survive a fault;
the flag-clearing after the call runs only when the observer returns.
Result: the table as mutated so far, and the error if one was raised. -/
def triggerActionCar (tbl : List (String × KeyBinding)) (actionName : String)
    (value : Bool) : List (String × KeyBinding) × Option String :=
  match findAction tbl actionName with
  | none => (tbl, some ("undefined action: " ++ actionName))
  | some action =>
    if action.isPressed ≠ value then
      let a1 : KeyBinding :=
        { action with isPressed := value, justPressed := value,
                      justReleased := !value }
      let tbl1 := setAction tbl actionName a1
      match carOnInputChange tbl1 with
      | .error e => (tbl1, some e)
      | .ok _ =>
        (setAction tbl1 actionName
          { a1 with justPressed := false, justReleased := false }, none)
    else (tbl, none)

/-- `Vehicle.resetControls` (`Vehicle.ts` lines 113-119):
`triggerAction(action, false)` for every action of the table in iteration
order; a fault raised by an inner `onInputChange` aborts the loop. -/
def resetControlsCar (tbl : List (String × KeyBinding)) :
    List (String × KeyBinding) × Option String :=
  go (tbl.map Prod.fst) tbl
where
  go : List String → List (String × KeyBinding) →
      List (String × KeyBinding) × Option String
  | [], t => (t, none)
  | n :: ns, t =>
    match triggerActionCar t n false with
    | (t', some e) => (t', some e)
    | (t', none) => go ns t'

/-- The `isPressed` state of the six car actions, as read by `Car.update`
and `Car.physicsPreStep` (`this.actions.<name>.isPressed`). -/
structure CarPressed where
  throttle : Bool
  reverse : Bool
  left : Bool
  right : Bool
  handbrake : Bool
  horn : Bool
deriving DecidableEq, Repr

/-- The per-car mutable state touched by `Car.update` (`Car.ts` lines
27-34 and 43-91) together with the per-wheel values the integrator keeps
(`wheelInfo.engineForce` / `steering` / `brake`, written through
`Vehicle.applyEngineForce` / `setSteeringValue` / `setBrake`, which loop
over all wheels with the same value). -/
structure CarState where
  position : Vec3
  gear : ℤ
  shiftTimer : ℚ
  timeToShift : ℚ
  airSpinTimer : ℚ
  canTiltForwards : Bool
  wheelEngineForces : List ℚ
  wheelSteering : List ℚ
  wheelBrakes : List ℚ
deriving DecidableEq, Repr

/-- `Car` field initialisers: `gear = 1`, `shiftTimer = 0`,
`timeToShift = 0.2`, `airSpinTimer = 0`, `canTiltForwards = false`;
a fresh raycast vehicle carries zero engine force, steering and brake
on each of its `n` wheels. -/
def carStateInit (n : Nat) : CarState :=
  { position := Vec3.zero, gear := 1, shiftTimer := 0, timeToShift := 1/5,
    airSpinTimer := 0, canTiltForwards := false,
    wheelEngineForces := List.replicate n 0,
    wheelSteering := List.replicate n 0,
    wheelBrakes := List.replicate n 0 }

/-- `Car.update(timeStep)` (`Car.ts` lines 43-91).  Inputs read from the
environment each tick: the pressed states, the chassis position
(`this.collision.position`) and `rayCastVehicle.numWheelsOnGround`.
`super.update` (`Vehicle.ts` lines 72-107) only syncs render transforms.
The returned command list records the integrator calls issued this tick
(`setSteeringValue` always; `applyEngineForce` only on the branches that
reach it; `setBrake` always).  Note the engine block issues no
`applyEngineForce` call at all when throttle or reverse is pressed while
no wheel has contact, and never touches `gear` or `shiftTimer`. -/
def carUpdate (a : CarPressed) (collisionPosition : Vec3)
    (numWheelsOnGround : Nat) (timeStep : ℚ) (s : CarState) :
    CarState × List Cmd :=
  let tiresHaveContact := 0 < numWheelsOnGround
  -- Air spin timer / tilt flag (lines 49-56)
  let airSpinTimer := if tiresHaveContact then 0 else s.airSpinTimer + timeStep
  let canTiltForwards :=
    if tiresHaveContact then false
    else if !a.throttle then true else s.canTiltForwards
  -- Steering (lines 58-65): left checked first
  let steerVal : ℚ := if a.left then 7/10 else if a.right then -(7/10) else 0
  -- Engine (lines 67-78): throttle checked first; air ticks issue no call
  let engine : Option ℚ :=
    if a.throttle then (if tiresHaveContact then some 1500 else none)
    else if a.reverse then (if tiresHaveContact then some (-1500) else none)
    else some 0
  -- Braking (lines 80-85)
  let brakeVal : ℚ := if a.handbrake then 10 else 0
  ({ position := collisionPosition,
     gear := s.gear, shiftTimer := s.shiftTimer, timeToShift := s.timeToShift,
     airSpinTimer := airSpinTimer, canTiltForwards := canTiltForwards,
     wheelEngineForces :=
       match engine with
       | some f => s.wheelEngineForces.map (fun _ => f)
       | none => s.wheelEngineForces,
     wheelSteering := s.wheelSteering.map (fun _ => steerVal),
     wheelBrakes := s.wheelBrakes.map (fun _ => brakeVal) },
   [Cmd.setSteeringValue steerVal]
     ++ (match engine with | some f => [Cmd.applyEngineForce f] | none => [])
     ++ [Cmd.setBrake brakeVal])

/-- The steering-target computation of `Car.physicsPreStep` (`Car.ts`
lines 237-267).  `driftCorrection` is the value of
`Utils.getSignedAngleBetweenVectors(velocityDirection, forward)`
(`FunctionLibrary` is external to the provided sources and transcendental;
the signed angle is taken as an input here).  The right branch is checked
first, as in the source. -/
def steeringTarget (rightPressed leftPressed : Bool)
    (speed driftCorrection : ℚ) : ℚ :=
  let maxSteerVal : ℚ := 4/5
  let speedFactor := clamp (speed * (3/10)) 1 numberMaxValue
  if rightPressed then
    clamp (jsMin (-maxSteerVal / speedFactor) (-driftCorrection))
      (-maxSteerVal) maxSteerVal
  else if leftPressed then
    clamp (jsMax (maxSteerVal / speedFactor) (-driftCorrection))
      (-maxSteerVal) maxSteerVal
  else 0

/-- `Car.physicsPreStep`, line 161: the chassis-local forward axis. -/
def carForward (q : Quat) : Vec3 := applyQuaternion q ⟨0, 0, 1⟩

/-- `Car.physicsPreStep`, line 162: the chassis-local right axis. -/
def carRight (q : Quat) : Vec3 := applyQuaternion q ⟨1, 0, 0⟩

/-- `Car.physicsPreStep`, line 163: the chassis-local up axis. -/
def carUp (q : Quat) : Vec3 := applyQuaternion q ⟨0, 1, 0⟩

/-- `Car.physicsPreStep`, lines 171-173: ramped air-spin authority
(`clamp(airSpinTimer / 2, 0, 1) * clamp(speed, 0, 1)`). -/
def airSpinInfluence (airSpinTimer speed : ℚ) : ℚ :=
  clamp (airSpinTimer / 2) 0 1 * clamp speed 0 1

/-- `Car.physicsPreStep`, line 176: `up.dot((0,-1,0)) / 2 + 0.5`. -/
def upFactor (q : Quat) : ℚ := (carUp q).dot ⟨0, -1, 0⟩ / 2 + 1/2

/-- `Car.physicsPreStep`, lines 175-177: flip-recovery bias
`clamp(1 - speed, 0, 1) * upFactor * 3`. -/
def flipOverInfluence (q : Quat) (speed : ℚ) : ℚ :=
  clamp (1 - speed) 0 1 * upFactor q * 3

/-- `Car.physicsPreStep`, line 179: `maxAirSpinMagnitude = 2.0`. -/
def maxAirSpinMagnitude : ℚ := 2

/-- `Car.physicsPreStep`, line 180: `airSpinAcceleration = 0.15`. -/
def airSpinAcceleration : ℚ := 3/20

/-- `Car.physicsPreStep`, lines 188-193: the forward-axis angular-velocity
increment `forward.scale(airSpinAcceleration * (airSpinInfluence +
flipOverInfluence))`. -/
def effectiveSpinVectorForward (q : Quat) (airSpinTimer speed : ℚ) : Vec3 :=
  Vec3.scale (airSpinAcceleration *
    (airSpinInfluence airSpinTimer speed + flipOverInfluence q speed)) (carForward q)

/-- `Car.physicsPreStep`, lines 194-199: the right-axis angular-velocity
increment `right.scale(airSpinAcceleration * airSpinInfluence)`. -/
def effectiveSpinVectorRight (q : Quat) (airSpinTimer speed : ℚ) : Vec3 :=
  Vec3.scale (airSpinAcceleration * airSpinInfluence airSpinTimer speed) (carRight q)

/-- `Car.physicsPreStep`, lines 204-215 (Right / Left): gated roll
increment along the forward axis.  `spinVectorForward` is a copy of
`forward`. -/
def omegaRollStep (q : Quat) (airSpinTimer speed : ℚ) (a : CarPressed)
    (ω : Vec3) : Vec3 :=
  if a.right && !a.left then
    if ω.dot (carForward q) < maxAirSpinMagnitude then
      ω.vadd (effectiveSpinVectorForward q airSpinTimer speed)
    else ω
  else if a.left && !a.right then
    if -maxAirSpinMagnitude < ω.dot (carForward q) then
      ω.vsub (effectiveSpinVectorForward q airSpinTimer speed)
    else ω
  else ω

/-- `Car.physicsPreStep`, lines 217-235 (Forwards / Backwards): gated
pitch increment along the right axis, applied to the roll-updated angular
velocity. -/
def omegaPitchStep (q : Quat) (airSpinTimer speed : ℚ)
    (canTiltForwards : Bool) (a : CarPressed) (ω1 : Vec3) : Vec3 :=
  if canTiltForwards && a.throttle && !a.reverse then
    if ω1.dot (carRight q) < maxAirSpinMagnitude then
      ω1.vadd (effectiveSpinVectorRight q airSpinTimer speed)
    else ω1
  else if a.reverse && !a.throttle then
    if -maxAirSpinMagnitude < ω1.dot (carRight q) then
      ω1.vsub (effectiveSpinVectorRight q airSpinTimer speed)
    else ω1
  else ω1

/-- `Car.physicsPreStep(body)` (`Car.ts` lines 153-268).  Reads the chassis
quaternion `q`, linear velocity `v` and angular velocity `ω` from the
body, and `airSpinTimer` / `canTiltForwards` / the pressed states from the
car.  The speed measured on line 166 is the velocity component along the
forward axis.  Returns the new angular velocity (the only body mutation),
the new steering-simulator target and the measured `_speed`.  Note that
nothing in the body is gated on `numWheelsOnGround`. -/
def physicsPreStep (q : Quat) (v ω : Vec3) (airSpinTimer : ℚ)
    (canTiltForwards : Bool) (a : CarPressed) (driftCorrection : ℚ) :
    Vec3 × ℚ × ℚ :=
  let speed := v.dot (carForward q)
  let ω1 := omegaRollStep q airSpinTimer speed a ω
  let ω2 := omegaPitchStep q airSpinTimer speed canTiltForwards a ω1
  (ω2, steeringTarget a.right a.left speed driftCorrection, speed)

/-- The four position slots of the chassis `CANNON.Body` written by
`Vehicle.setPosition`. -/
structure BodyPosition where
  position : Vec3
  previousPosition : Vec3
  interpolatedPosition : Vec3
  initPosition : Vec3
deriving DecidableEq, Repr

/-- `Vehicle.setPosition(x, y, z)` (`Vehicle.ts` lines 194-199): sets the
body position together with its previous, interpolated and initial
copies, so no integrator interpolation can blend in a stale value. -/
def setPosition (_b : BodyPosition) (x y z : ℚ) : BodyPosition :=
  { position := ⟨x, y, z⟩, previousPosition := ⟨x, y, z⟩,
    interpolatedPosition := ⟨x, y, z⟩, initPosition := ⟨x, y, z⟩ }

/-- The transform read of the vehicle: the world transform exposed to the
render boundary is synced from `this.collision.position` by
`Vehicle.update` (lines 72-77), and any direct read of the chassis
transform goes to `body.position` as well. -/
def vehicleTransformPosition (b : BodyPosition) : Vec3 := b.position

section QuatLemmas

/-- The forward axis of a unit quaternion is a unit vector. -/
theorem forward_unit (q : Quat) (h : q.x ^ 2 + q.y ^ 2 + q.z ^ 2 + q.w ^ 2 = 1) :
    (applyQuaternion q ⟨0, 0, 1⟩).dot (applyQuaternion q ⟨0, 0, 1⟩) = 1 := by
  simp only [applyQuaternion, Vec3.dot]
  linear_combination (4 * (q.x ^ 2 + q.y ^ 2)) * h

/-- The right axis of a unit quaternion is a unit vector. -/
theorem right_unit (q : Quat) (h : q.x ^ 2 + q.y ^ 2 + q.z ^ 2 + q.w ^ 2 = 1) :
    (applyQuaternion q ⟨1, 0, 0⟩).dot (applyQuaternion q ⟨1, 0, 0⟩) = 1 := by
  simp only [applyQuaternion, Vec3.dot]
  linear_combination (4 * (q.y ^ 2 + q.z ^ 2)) * h

/-- The up axis of a unit quaternion is a unit vector. -/
theorem up_unit (q : Quat) (h : q.x ^ 2 + q.y ^ 2 + q.z ^ 2 + q.w ^ 2 = 1) :
    (applyQuaternion q ⟨0, 1, 0⟩).dot (applyQuaternion q ⟨0, 1, 0⟩) = 1 := by
  simp only [applyQuaternion, Vec3.dot]
  linear_combination (4 * (q.x ^ 2 + q.z ^ 2)) * h

/-- Forward and right axes of a unit quaternion are orthogonal. -/
theorem forward_dot_right (q : Quat)
    (h : q.x ^ 2 + q.y ^ 2 + q.z ^ 2 + q.w ^ 2 = 1) :
    (applyQuaternion q ⟨0, 0, 1⟩).dot (applyQuaternion q ⟨1, 0, 0⟩) = 0 := by
  simp only [applyQuaternion, Vec3.dot]
  linear_combination (-4 * q.x * q.z) * h

end QuatLemmas

section SpinLemmas

theorem Vec3.dot_comm (a b : Vec3) : a.dot b = b.dot a := by
  simp [Vec3.dot]; ring

theorem Vec3.scale_zero (a : Vec3) : Vec3.scale 0 a = Vec3.zero := by
  simp [Vec3.scale, Vec3.zero]

theorem airSpinInfluence_nonneg (t s : ℚ) : 0 ≤ airSpinInfluence t s :=
  mul_nonneg (clamp_nonneg _ _) (clamp_nonneg _ _)

theorem airSpinInfluence_le_one (t s : ℚ) : airSpinInfluence t s ≤ 1 :=
  mul_le_one₀ (clamp_le _ _ _ (by norm_num)) (clamp_nonneg _ _)
    (clamp_le _ _ _ (by norm_num))

theorem upFactor_mem (q : Quat)
    (hq : q.x ^ 2 + q.y ^ 2 + q.z ^ 2 + q.w ^ 2 = 1) :
    0 ≤ upFactor q ∧ upFactor q ≤ 1 := by
  have hu : (carUp q).dot (carUp q) = 1 := up_unit q hq
  simp only [Vec3.dot] at hu
  unfold upFactor
  simp only [Vec3.dot]
  constructor <;>
    nlinarith [sq_nonneg ((carUp q).x), sq_nonneg ((carUp q).z),
      sq_nonneg ((carUp q).y - 1), sq_nonneg ((carUp q).y + 1)]

theorem flipOverInfluence_nonneg (q : Quat) (s : ℚ)
    (hq : q.x ^ 2 + q.y ^ 2 + q.z ^ 2 + q.w ^ 2 = 1) :
    0 ≤ flipOverInfluence q s :=
  mul_nonneg (mul_nonneg (clamp_nonneg _ _) (upFactor_mem q hq).1) (by norm_num)

theorem flipOverInfluence_le_three (q : Quat) (s : ℚ)
    (hq : q.x ^ 2 + q.y ^ 2 + q.z ^ 2 + q.w ^ 2 = 1) :
    flipOverInfluence q s ≤ 3 := by
  have h1 : clamp (1 - s) 0 1 ≤ 1 := clamp_le _ _ _ (by norm_num)
  have h2 : 0 ≤ clamp (1 - s) 0 1 := clamp_nonneg _ _
  have h3 := (upFactor_mem q hq).1
  have h4 := (upFactor_mem q hq).2
  unfold flipOverInfluence
  nlinarith

theorem omegaRollStep_dot_right (q : Quat) (t s : ℚ) (a : CarPressed)
    (ω : Vec3) (hq : q.x ^ 2 + q.y ^ 2 + q.z ^ 2 + q.w ^ 2 = 1) :
    (omegaRollStep q t s a ω).dot (carRight q) = ω.dot (carRight q) := by
  have hfr : (carForward q).dot (carRight q) = 0 := forward_dot_right q hq
  unfold omegaRollStep
  split_ifs <;>
    simp [Vec3.dot_vadd, Vec3.dot_vsub, effectiveSpinVectorForward,
      Vec3.dot_scale, hfr]

theorem omegaPitchStep_dot_forward (q : Quat) (t s : ℚ) (ct : Bool)
    (a : CarPressed) (ω1 : Vec3)
    (hq : q.x ^ 2 + q.y ^ 2 + q.z ^ 2 + q.w ^ 2 = 1) :
    (omegaPitchStep q t s ct a ω1).dot (carForward q) = ω1.dot (carForward q) := by
  have hrf : (carRight q).dot (carForward q) = 0 := by
    rw [Vec3.dot_comm]; exact forward_dot_right q hq
  unfold omegaPitchStep
  split_ifs <;>
    simp [Vec3.dot_vadd, Vec3.dot_vsub, effectiveSpinVectorRight,
      Vec3.dot_scale, hrf]

theorem omegaRollStep_bound (q : Quat) (t s : ℚ) (a : CarPressed) (ω : Vec3)
    (hq : q.x ^ 2 + q.y ^ 2 + q.z ^ 2 + q.w ^ 2 = 1)
    (h : |ω.dot (carForward q)| ≤ 13/5) :
    |(omegaRollStep q t s a ω).dot (carForward q)| ≤ 13/5 := by
  have hff : (carForward q).dot (carForward q) = 1 := forward_unit q hq
  have ha0 := airSpinInfluence_nonneg t s
  have ha1 := airSpinInfluence_le_one t s
  have hf0 := flipOverInfluence_nonneg q s hq
  have hf3 := flipOverInfluence_le_three q s hq
  rw [abs_le] at h ⊢
  unfold omegaRollStep
  split_ifs with h1 h2 h3 h4
  · rw [Vec3.dot_vadd, effectiveSpinVectorForward, Vec3.dot_scale, hff]
    rw [maxAirSpinMagnitude] at h2
    unfold airSpinAcceleration
    constructor <;> nlinarith
  · exact h
  · rw [Vec3.dot_vsub, effectiveSpinVectorForward, Vec3.dot_scale, hff]
    rw [maxAirSpinMagnitude] at h4
    unfold airSpinAcceleration
    constructor <;> nlinarith
  · exact h
  · exact h

theorem omegaPitchStep_bound (q : Quat) (t s : ℚ) (ct : Bool)
    (a : CarPressed) (ω1 : Vec3)
    (hq : q.x ^ 2 + q.y ^ 2 + q.z ^ 2 + q.w ^ 2 = 1)
    (h : |ω1.dot (carRight q)| ≤ 43/20) :
    |(omegaPitchStep q t s ct a ω1).dot (carRight q)| ≤ 43/20 := by
  have hrr : (carRight q).dot (carRight q) = 1 := right_unit q hq
  have ha0 := airSpinInfluence_nonneg t s
  have ha1 := airSpinInfluence_le_one t s
  rw [abs_le] at h ⊢
  unfold omegaPitchStep
  split_ifs with h1 h2 h3 h4
  · rw [Vec3.dot_vadd, effectiveSpinVectorRight, Vec3.dot_scale, hrr]
    rw [maxAirSpinMagnitude] at h2
    unfold airSpinAcceleration
    constructor <;> nlinarith
  · exact h
  · rw [Vec3.dot_vsub, effectiveSpinVectorRight, Vec3.dot_scale, hrr]
    rw [maxAirSpinMagnitude] at h4
    unfold airSpinAcceleration
    constructor <;> nlinarith
  · exact h
  · exact h

end SpinLemmas

/-- Iterated `Car.update` over a list of per-tick environments: pressed
states, chassis position, `numWheelsOnGround`, time step. -/
def carTicks (ticks : List (CarPressed × Vec3 × Nat × ℚ)) (s : CarState) :
    CarState :=
  ticks.foldl (fun st t => (carUpdate t.1 t.2.1 t.2.2.1 t.2.2.2 st).1) s

theorem carTicks_gear_shiftTimer (ticks : List (CarPressed × Vec3 × Nat × ℚ))
    (s : CarState) :
    (carTicks ticks s).gear = s.gear ∧
    (carTicks ticks s).shiftTimer = s.shiftTimer := by
  induction ticks generalizing s with
  | nil => exact ⟨rfl, rfl⟩
  | cons t ts ih => exact ih _

/-- C1: the spec and the repository's own documentation
(`docs/physics-system.md`: "Automatic gear shifting ... Shift time: 0.2
seconds") promise a drivetrain state machine, and `Car.ts` still declares
`gear`, `shiftTimer` and `timeToShift`, but `Car.update` never writes
them: starting from the freshly constructed state, `gear` is `1` and
`shiftTimer` is `0` after every tick sequence whatsoever, so no
1-to-2 shift (or any shift) ever happens. -/
theorem carUpdate_never_shifts (n : Nat)
    (ticks : List (CarPressed × Vec3 × Nat × ℚ)) :
    (carTicks ticks (carStateInit n)).gear = 1 ∧
    (carTicks ticks (carStateInit n)).shiftTimer = 0 :=
  carTicks_gear_shiftTimer ticks (carStateInit n)

/-- C8: on any tick whose grounded-wheel count is positive (in particular
on a 0-to-positive transition) `Car.update` leaves `airSpinTimer` equal to
`0` at the end of the tick, and the timer can only grow on a tick whose
grounded-wheel count is `0`. -/
theorem airSpinTimer_ground_reset (a : CarPressed) (cp : Vec3) (n : Nat)
    (dt : ℚ) (s : CarState) (h0 : 0 ≤ s.airSpinTimer) :
    (0 < n → (carUpdate a cp n dt s).1.airSpinTimer = 0) ∧
    (s.airSpinTimer < (carUpdate a cp n dt s).1.airSpinTimer → n = 0) := by
  by_cases hn : 0 < n
  · refine ⟨fun _ => ?_, fun hlt => ?_⟩
    · simp [carUpdate, hn]
    · exfalso
      simp [carUpdate, hn] at hlt
      linarith
  · have hn0 : n = 0 := by omega
    exact ⟨fun h => absurd h hn, fun _ => hn0⟩

/-- Witness for `airSpinTimer_ground_reset` at a concrete grounded tick. -/
theorem airSpinTimer_ground_reset_witness :
    (0 < 1 →
      (carUpdate ⟨false, false, false, false, false, false⟩ Vec3.zero 1 (1/60)
        (carStateInit 4)).1.airSpinTimer = 0) ∧
    ((carStateInit 4).airSpinTimer <
      (carUpdate ⟨false, false, false, false, false, false⟩ Vec3.zero 1 (1/60)
        (carStateInit 4)).1.airSpinTimer → 1 = 0) :=
  airSpinTimer_ground_reset _ _ _ _ _ (by norm_num [carStateInit])

/-- C10: `Vehicle.setPosition(x, y, z)` immediately places the chassis
transform at exactly `(x, y, z)`: the body position read back with no tick
elapsed is `(x, y, z)`, and the previous, interpolated and initial copies
(the other slots an integrator read could blend in) hold the same exact
value. -/
theorem setPosition_transform_exact (b : BodyPosition) (x y z : ℚ) :
    vehicleTransformPosition (setPosition b x y z) = ⟨x, y, z⟩ ∧
    (setPosition b x y z).previousPosition = ⟨x, y, z⟩ ∧
    (setPosition b x y z).interpolatedPosition = ⟨x, y, z⟩ ∧
    (setPosition b x y z).initPosition = ⟨x, y, z⟩ :=
  ⟨rfl, rfl, rfl, rfl⟩

/-- C6: `Car.onInputChange` faults on every call, whatever the current
states of the six bindings of the car action table: after the (existing)
`throttle` and `reverse` reads it unconditionally accesses
`this.actions.brake`, which the car action table does not define, so the
call raises instead of returning. -/
theorem carOnInputChange_always_faults (t r l ri hb ho : KeyBinding) :
    carOnInputChange (carActions t r l ri hb ho) =
      .error "undefined action: brake" := rfl

/-- C7: for every key code actually bound in the car action table
(`KeyW`, `KeyS`, `KeyA`, `KeyD`, `Space`, `KeyH`),
`Car.handleKeyboardEvent` changes nothing: it indexes the table by the raw
code while the table is keyed by action names, so the lookup misses, every
binding keeps its exact state, and no edge event or base-class command
(exit, restart, `triggerAction`) is produced. -/
theorem carHandleKeyboardEvent_ignores_bound_codes
    (t r l ri hb ho : KeyBinding) (code : String) (pressed : Bool)
    (h : code ∈ carBoundCodes) :
    carHandleKeyboardEvent (carActions t r l ri hb ho) code pressed =
      (carActions t r l ri hb ho, []) := by
  fin_cases h <;> rfl

/-- Witness for `carHandleKeyboardEvent_ignores_bound_codes` at the
`throttle` binding's own code `KeyW` on the freshly constructed table. -/
theorem carHandleKeyboardEvent_ignores_bound_codes_witness :
    "KeyW" ∈ carBoundCodes ∧
    carHandleKeyboardEvent carActionsInit "KeyW" true = (carActionsInit, []) :=
  ⟨by decide,
   carHandleKeyboardEvent_ignores_bound_codes _ _ _ _ _ _ "KeyW" true (by decide)⟩

/-- The selection rule claim C3 describes: of the two candidates, take the
one with the smaller magnitude. -/
def smallerMagnitude (a b : ℚ) : ℚ := if |a| ≤ |b| then a else b

/-- The steering target as worded by claim C3: the smaller-magnitude of
`maxSteer / speedFactor` (signed toward the pressed direction) and the
negated drift-correction angle, clamped to `[-maxSteer, maxSteer]`. -/
def steeringTargetClaimC3 (rightPressed leftPressed : Bool)
    (speed driftCorrection : ℚ) : ℚ :=
  let maxSteerVal : ℚ := 4/5
  let speedFactor := clamp (speed * (3/10)) 1 numberMaxValue
  if rightPressed then
    clamp (smallerMagnitude (-maxSteerVal / speedFactor) (-driftCorrection))
      (-maxSteerVal) maxSteerVal
  else if leftPressed then
    clamp (smallerMagnitude (maxSteerVal / speedFactor) (-driftCorrection))
      (-maxSteerVal) maxSteerVal
  else 0

/-- Counterexample to C3: with right pressed, speed 0 and drift-correction
angle 1/10, the code's `Math.min` picks `-0.8` (the larger-magnitude
candidate), not the smaller-magnitude `-0.1` the claim predicts. -/
theorem steeringTarget_not_smaller_magnitude :
    steeringTarget true false 0 (1/10) = -(4/5) ∧
    steeringTargetClaimC3 true false 0 (1/10) = -(1/10) ∧
    steeringTarget true false 0 (1/10) ≠
      steeringTargetClaimC3 true false 0 (1/10) := by
  refine ⟨?_, ?_, ?_⟩ <;>
    norm_num [steeringTarget, steeringTargetClaimC3, smallerMagnitude, clamp,
      jsMin, jsMax, numberMaxValue, abs_div, abs_neg, abs_of_nonneg, abs_one]

/-- Picks whichever candidate lies farther toward the right (the more
negative one). -/
def fartherTowardRight (a b : ℚ) : ℚ := if a ≤ b then a else b

theorem fartherTowardRight_eq_jsMin (a b : ℚ) :
    fartherTowardRight a b = jsMin a b := rfl

/-- Picks whichever candidate lies farther toward the left (the more
positive one). -/
def fartherTowardLeft (a b : ℚ) : ℚ := if b ≤ a then a else b

theorem fartherTowardLeft_eq_jsMax (a b : ℚ) :
    fartherTowardLeft a b = jsMax a b := by
  unfold fartherTowardLeft jsMax
  by_cases h : b ≤ a
  · by_cases h2 : a ≤ b
    · simp only [if_pos h, if_pos h2]
      exact le_antisymm h2 h
    · simp [h, h2]
  · have h2 : a ≤ b := le_of_not_le h
    simp [h, h2]

/-- The steering target as amended: of `maxSteer / speedFactor` (signed
toward the pressed direction) and the negated drift-correction angle, take
whichever lies farther toward the pressed direction, then clamp to
`[-maxSteer, maxSteer]`. -/
def steeringTargetAmendedC3 (rightPressed leftPressed : Bool)
    (speed driftCorrection : ℚ) : ℚ :=
  let maxSteerVal : ℚ := 4/5
  let speedFactor := clamp (speed * (3/10)) 1 numberMaxValue
  if rightPressed then
    clamp (fartherTowardRight (-maxSteerVal / speedFactor) (-driftCorrection))
      (-maxSteerVal) maxSteerVal
  else if leftPressed then
    clamp (fartherTowardLeft (maxSteerVal / speedFactor) (-driftCorrection))
      (-maxSteerVal) maxSteerVal
  else 0

/-- C3 as amended: when left or right is pressed the code's steering
target equals the candidate lying farther toward the pressed direction
(not the smaller-magnitude one), clamped to `[-maxSteer, maxSteer]`; and
the produced target always has magnitude at most `maxSteer = 0.8`. -/
theorem steeringTarget_farther_toward_direction (rightPressed leftPressed : Bool)
    (speed driftCorrection : ℚ) :
    steeringTarget rightPressed leftPressed speed driftCorrection =
      steeringTargetAmendedC3 rightPressed leftPressed speed driftCorrection ∧
    |steeringTarget rightPressed leftPressed speed driftCorrection| ≤ 4/5 := by
  constructor
  · unfold steeringTarget steeringTargetAmendedC3
    rcases rightPressed <;> rcases leftPressed <;>
      simp [fartherTowardRight_eq_jsMin, fartherTowardLeft_eq_jsMax]
  · unfold steeringTarget
    rcases rightPressed <;> rcases leftPressed <;> simp only []
    · norm_num
    · rw [abs_le]
      exact ⟨le_clamp _ _ _, clamp_le _ _ _ (by norm_num)⟩
    · rw [abs_le]
      exact ⟨le_clamp _ _ _, clamp_le _ _ _ (by norm_num)⟩
    · rw [abs_le]
      exact ⟨le_clamp _ _ _, clamp_le _ _ _ (by norm_num)⟩

/-- Pressed-state record with only throttle held. -/
def throttleOnly : CarPressed := ⟨true, false, false, false, false, false⟩

/-- C5 as amended: on a tick with throttle or reverse pressed, an engine
force is transmitted to the wheels (an `applyEngineForce` call is issued)
if and only if the grounded-wheel count is positive; when the count is 0
no call is made, so the wheels keep whatever engine force they last
received rather than carrying none. -/
theorem engineForce_grounded_gate (a : CarPressed) (cp : Vec3) (n : Nat)
    (dt : ℚ) (s : CarState) (h : a.throttle = true ∨ a.reverse = true) :
    ((∃ f, Cmd.applyEngineForce f ∈ (carUpdate a cp n dt s).2) ↔ 0 < n) ∧
    (n = 0 →
      (carUpdate a cp n dt s).1.wheelEngineForces = s.wheelEngineForces) := by
  by_cases hn : 0 < n
  · rcases h with h | h
    · refine ⟨⟨fun _ => hn, fun _ => ⟨1500, ?_⟩⟩, fun h0 => by omega⟩
      simp [carUpdate, hn, h]
    · by_cases ht : a.throttle = true
      · refine ⟨⟨fun _ => hn, fun _ => ⟨1500, ?_⟩⟩, fun h0 => by omega⟩
        simp [carUpdate, hn, ht]
      · refine ⟨⟨fun _ => hn, fun _ => ⟨-1500, ?_⟩⟩, fun h0 => by omega⟩
        simp [carUpdate, hn, h, ht]
  · have hn0 : n = 0 := by omega
    subst hn0
    rcases h with h | h
    · refine ⟨⟨fun ⟨f, hf⟩ => ?_, fun hlt => by omega⟩, fun _ => ?_⟩
      · simp [carUpdate, h] at hf
      · simp [carUpdate, h]
    · by_cases ht : a.throttle = true
      · refine ⟨⟨fun ⟨f, hf⟩ => ?_, fun hlt => by omega⟩, fun _ => ?_⟩
        · simp [carUpdate, ht] at hf
        · simp [carUpdate, ht]
      · refine ⟨⟨fun ⟨f, hf⟩ => ?_, fun hlt => by omega⟩, fun _ => ?_⟩
        · simp [carUpdate, h, ht] at hf
        · simp [carUpdate, h, ht]

/-- Witness for `engineForce_grounded_gate`: grounded tick with throttle. -/
theorem engineForce_grounded_gate_witness :
    ((∃ f, Cmd.applyEngineForce f ∈
        (carUpdate throttleOnly Vec3.zero 4 (1/60) (carStateInit 4)).2) ↔
      0 < 4) ∧
    (4 = 0 →
      (carUpdate throttleOnly Vec3.zero 4 (1/60) (carStateInit 4)).1.wheelEngineForces =
        (carStateInit 4).wheelEngineForces) :=
  engineForce_grounded_gate _ _ _ _ _ (Or.inl rfl)

/-- Counterexample to C5: after one grounded throttle tick the wheels hold
engine force 1500; a following airborne throttle tick (grounded-wheel
count 0) leaves all four wheels still carrying 1500, not zero — the claim
that "during an airborne tick the wheels carry no engine force" fails. -/
theorem airborne_wheels_keep_engine_force :
    (carUpdate throttleOnly Vec3.zero 0 (1/60)
        (carUpdate throttleOnly Vec3.zero 4 (1/60) (carStateInit 4)).1).1.wheelEngineForces =
      [1500, 1500, 1500, 1500] ∧ (1500 : ℚ) ≠ 0 := by
  constructor
  · rfl
  · norm_num

theorem airSpinInfluence_zero_timer (s : ℚ) : airSpinInfluence 0 s = 0 := by
  unfold airSpinInfluence clamp jsMin jsMax
  norm_num

theorem flipOverInfluence_fast (q : Quat) (s : ℚ) (h : 1 ≤ s) :
    flipOverInfluence q s = 0 := by
  have hc : clamp (1 - s) 0 1 = 0 := by
    rw [clamp_eq, min_eq_left (by linarith), max_eq_left (by linarith)]
  unfold flipOverInfluence
  rw [hc, zero_mul, zero_mul]

theorem flipOverInfluence_upright (q : Quat) (s : ℚ) (h : upFactor q = 0) :
    flipOverInfluence q s = 0 := by
  unfold flipOverInfluence
  rw [h, mul_zero, zero_mul]

theorem effectiveSpinVectorRight_zero_timer (q : Quat) (s : ℚ) :
    effectiveSpinVectorRight q 0 s = Vec3.zero := by
  unfold effectiveSpinVectorRight
  rw [airSpinInfluence_zero_timer, mul_zero, Vec3.scale_zero]

theorem effectiveSpinVectorForward_inert (q : Quat) (s : ℚ)
    (hf : flipOverInfluence q s = 0) :
    effectiveSpinVectorForward q 0 s = Vec3.zero := by
  unfold effectiveSpinVectorForward
  rw [airSpinInfluence_zero_timer, hf, add_zero, mul_zero, Vec3.scale_zero]

theorem omegaRollStep_inert (q : Quat) (t s : ℚ) (a : CarPressed) (ω : Vec3)
    (h : effectiveSpinVectorForward q t s = Vec3.zero) :
    omegaRollStep q t s a ω = ω := by
  unfold omegaRollStep
  rw [h]
  split_ifs <;> simp [Vec3.vadd_zero, Vec3.vsub_zero]

theorem omegaRollStep_no_input (q : Quat) (t s : ℚ) (a : CarPressed)
    (ω : Vec3) (h : a.left = false ∧ a.right = false) :
    omegaRollStep q t s a ω = ω := by
  unfold omegaRollStep
  rw [h.1, h.2]
  simp

theorem omegaPitchStep_inert_grounded (q : Quat) (s : ℚ) (a : CarPressed)
    (ω1 : Vec3) : omegaPitchStep q 0 s false a ω1 = ω1 := by
  unfold omegaPitchStep
  rw [effectiveSpinVectorRight_zero_timer]
  split_ifs <;> simp_all [Vec3.vadd_zero, Vec3.vsub_zero]

/-- C2 as amended: `Car.physicsPreStep` itself has no `groundedCount`
gate; on a grounded tick the pitch correction and the air-spin ramp are
inert (the timer was just reset and the tilt flag cleared by
`Car.update`), but the flip-recovery bias is not, so angular velocity is
guaranteed unchanged only when additionally the flip-recovery influence
vanishes (speed at least 1, or up-factor zero, i.e. chassis upright) or
no left/right input is pressed. -/
theorem physicsPreStep_grounded_inert (q : Quat) (v ω : Vec3)
    (a : CarPressed) (cp : Vec3) (n : Nat) (dt drift : ℚ) (s : CarState)
    (hn : 0 < n)
    (hflip : 1 ≤ v.dot (carForward q) ∨ upFactor q = 0 ∨
      (a.left = false ∧ a.right = false)) :
    (physicsPreStep q v ω (carUpdate a cp n dt s).1.airSpinTimer
      (carUpdate a cp n dt s).1.canTiltForwards a drift).1 = ω := by
  have ht : (carUpdate a cp n dt s).1.airSpinTimer = 0 := by
    simp [carUpdate, hn]
  have hc : (carUpdate a cp n dt s).1.canTiltForwards = false := by
    simp [carUpdate, hn]
  rw [ht, hc]
  show omegaPitchStep q 0 (v.dot (carForward q)) false a
      (omegaRollStep q 0 (v.dot (carForward q)) a ω) = ω
  rw [omegaPitchStep_inert_grounded]
  rcases hflip with h | h | h
  · exact omegaRollStep_inert _ _ _ _ _
      (effectiveSpinVectorForward_inert _ _ (flipOverInfluence_fast q _ h))
  · exact omegaRollStep_inert _ _ _ _ _
      (effectiveSpinVectorForward_inert _ _ (flipOverInfluence_upright q _ h))
  · exact omegaRollStep_no_input _ _ _ _ _ h

/-- Witness for `physicsPreStep_grounded_inert`: upright chassis, grounded
tick with right and throttle held; angular velocity is untouched. -/
theorem physicsPreStep_grounded_inert_witness :
    (physicsPreStep ⟨0, 0, 0, 1⟩ Vec3.zero ⟨1, 2, 3⟩
      (carUpdate ⟨true, false, false, true, false, false⟩ Vec3.zero 4 (1/60)
        (carStateInit 4)).1.airSpinTimer
      (carUpdate ⟨true, false, false, true, false, false⟩ Vec3.zero 4 (1/60)
        (carStateInit 4)).1.canTiltForwards
      ⟨true, false, false, true, false, false⟩ 0).1 = ⟨1, 2, 3⟩ :=
  physicsPreStep_grounded_inert _ _ _ _ _ _ _ _ _ (by norm_num)
    (Or.inr (Or.inl (by norm_num [upFactor, carUp, applyQuaternion, Vec3.dot])))

/-- Counterexample to C2: a grounded tick (all four wheels on the ground,
so `Car.update` has just reset the air-spin timer and the tilt flag) with
right pressed, zero velocity and a tilted chassis: the flip-recovery bias
still changes the angular velocity even though `groundedCount > 0`. -/
theorem physicsPreStep_grounded_changes_angvel :
    0 < 4 ∧
    (physicsPreStep ⟨3/5, 0, 0, 4/5⟩ Vec3.zero Vec3.zero
      (carUpdate ⟨false, false, false, true, false, false⟩ Vec3.zero 4 (1/60)
        (carStateInit 4)).1.airSpinTimer
      (carUpdate ⟨false, false, false, true, false, false⟩ Vec3.zero 4 (1/60)
        (carStateInit 4)).1.canTiltForwards
      ⟨false, false, false, true, false, false⟩ 0).1 ≠ Vec3.zero := by
  refine ⟨by norm_num, ?_⟩
  have ht : (carUpdate ⟨false, false, false, true, false, false⟩ Vec3.zero 4
      (1/60) (carStateInit 4)).1.airSpinTimer = 0 := by
    simp [carUpdate]
  have hc : (carUpdate ⟨false, false, false, true, false, false⟩ Vec3.zero 4
      (1/60) (carStateInit 4)).1.canTiltForwards = false := by
    simp [carUpdate]
  rw [ht, hc]
  norm_num [physicsPreStep, omegaPitchStep, omegaRollStep, carForward, carRight, carUp,
    applyQuaternion, Vec3.dot, Vec3.vadd, Vec3.vsub, Vec3.scale, Vec3.zero,
    effectiveSpinVectorForward, effectiveSpinVectorRight, airSpinInfluence,
    flipOverInfluence, upFactor, maxAirSpinMagnitude, airSpinAcceleration,
    clamp, jsMin, jsMax]

/-- C4 as amended: the gate in `Car.physicsPreStep` is one-sided — it
blocks an increment only once the projection has already reached
`maxAirSpinMagnitude = 2.0`, so a single step can overshoot by one
increment.  For a unit chassis quaternion the projection of the new
angular velocity onto the forward axis stays within
`2 + 0.15·(1 + 3) = 2.6` and onto the right axis within
`2 + 0.15 = 2.15`, whenever it was within those bounds before the step —
for any inputs, any air time and any speed. -/
theorem physicsPreStep_spin_bounded (q : Quat) (v ω : Vec3) (timer : ℚ)
    (ct : Bool) (a : CarPressed) (drift : ℚ)
    (hq : q.x ^ 2 + q.y ^ 2 + q.z ^ 2 + q.w ^ 2 = 1)
    (hf : |ω.dot (carForward q)| ≤ 13/5)
    (hr : |ω.dot (carRight q)| ≤ 43/20) :
    |(physicsPreStep q v ω timer ct a drift).1.dot (carForward q)| ≤ 13/5 ∧
    |(physicsPreStep q v ω timer ct a drift).1.dot (carRight q)| ≤ 43/20 := by
  have h1 : (physicsPreStep q v ω timer ct a drift).1 =
      omegaPitchStep q timer (v.dot (carForward q)) ct a
        (omegaRollStep q timer (v.dot (carForward q)) a ω) := rfl
  rw [h1]
  constructor
  · rw [omegaPitchStep_dot_forward _ _ _ _ _ _ hq]
    exact omegaRollStep_bound _ _ _ _ _ hq hf
  · apply omegaPitchStep_bound _ _ _ _ _ _ hq
    rw [omegaRollStep_dot_right _ _ _ _ _ hq]
    exact hr

/-- Witness for `physicsPreStep_spin_bounded` at the identity orientation
with zero angular velocity. -/
theorem physicsPreStep_spin_bounded_witness :
    |(physicsPreStep ⟨0, 0, 0, 1⟩ Vec3.zero Vec3.zero 0 false
        ⟨false, false, false, false, false, false⟩ 0).1.dot
      (carForward ⟨0, 0, 0, 1⟩)| ≤ 13/5 ∧
    |(physicsPreStep ⟨0, 0, 0, 1⟩ Vec3.zero Vec3.zero 0 false
        ⟨false, false, false, false, false, false⟩ 0).1.dot
      (carRight ⟨0, 0, 0, 1⟩)| ≤ 43/20 :=
  physicsPreStep_spin_bounded _ _ _ _ _ _ _ (by norm_num)
    (by norm_num [Vec3.dot, Vec3.zero, carForward, applyQuaternion])
    (by norm_num [Vec3.dot, Vec3.zero, carRight, applyQuaternion])

/-- One full airborne tick of the counterexample run: `Car.update` with
grounded-wheel count 0 (right held, upside-down chassis, zero velocity)
followed by `Car.physicsPreStep` on the updated car state. -/
def airborneRightTick (p : CarState × Vec3) : CarState × Vec3 :=
  let s' := (carUpdate ⟨false, false, false, true, false, false⟩ Vec3.zero 0
    (1/60) p.1).1
  (s', (physicsPreStep ⟨1, 0, 0, 0⟩ Vec3.zero p.2 s'.airSpinTimer
    s'.canTiltForwards ⟨false, false, false, true, false, false⟩ 0).1)

/-- Counterexample to C4: five consecutive airborne ticks with right held,
starting from rest upside down (unit quaternion `(1,0,0,0)`, speed 0, so
each tick adds `0.15 × 3 = 0.45` along the forward axis while the gate
still reads a projection below 2): after the fifth stabilization step the
projection of the angular velocity onto the forward axis is `9/4 = 2.25`,
strictly above `maxSpinMagnitude = 2.0`. -/
theorem physicsPreStep_spin_exceeds_max :
    (airborneRightTick (airborneRightTick (airborneRightTick
      (airborneRightTick (airborneRightTick
        (carStateInit 4, Vec3.zero)))))).2.dot (carForward ⟨1, 0, 0, 0⟩) =
      9/4 ∧ (2 : ℚ) < 9/4 := by
  refine ⟨?_, by norm_num⟩
  norm_num [airborneRightTick, carUpdate, carStateInit, physicsPreStep,
    omegaRollStep, omegaPitchStep, carForward, carRight, carUp,
    applyQuaternion, Vec3.dot, Vec3.vadd, Vec3.vsub, Vec3.scale, Vec3.zero,
    effectiveSpinVectorForward, effectiveSpinVectorRight, airSpinInfluence,
    flipOverInfluence, upFactor, maxAirSpinMagnitude, airSpinAcceleration,
    clamp, jsMin, jsMax]

theorem exceptBind_ok {α β ε : Type} (a : α) (f : α → Except ε β) :
    (Except.ok a >>= f) = f a := rfl

theorem exceptBind_error {α β ε : Type} (e : ε) (f : α → Except ε β) :
    ((Except.error e : Except ε α) >>= f) = Except.error e := rfl

theorem exceptMap_error {α β ε : Type} (e : ε) (f : α → β) :
    (f <$> (Except.error e : Except ε α)) = Except.error e := rfl

theorem findAction_setAction_ne (tbl : List (String × KeyBinding))
    (n m : String) (b : KeyBinding) (h : m ≠ n) :
    findAction (setAction tbl n b) m = findAction tbl m := by
  induction tbl with
  | nil => rfl
  | cons p ps ih =>
    by_cases hpn : p.1 = n
    · simp [setAction, findAction, hpn, Ne.symm h] at ih ⊢
      exact ih
    · simp only [setAction, List.map_cons, if_neg hpn, findAction]
      simp only [setAction] at ih
      rw [ih]

/-- The name of the first pressed action of the car table in iteration
order, if any. -/
def firstPressedCar (t r l ri hb ho : KeyBinding) : Option String :=
  if t.isPressed then some "throttle"
  else if r.isPressed then some "reverse"
  else if l.isPressed then some "left"
  else if ri.isPressed then some "right"
  else if hb.isPressed then some "handbrake"
  else if ho.isPressed then some "horn"
  else none

set_option maxHeartbeats 1000000 in
theorem resetControls_no_pressed (t r l ri hb ho : KeyBinding)
    (h : firstPressedCar t r l ri hb ho = none) :
    resetControlsCar (carActions t r l ri hb ho) =
      (carActions t r l ri hb ho, none) := by
  unfold firstPressedCar at h
  split_ifs at h with h1 h2 h3 h4 h5 h6
  simp_all [resetControlsCar, resetControlsCar.go, triggerActionCar,
    findAction, carActions]

set_option maxHeartbeats 2000000 in
theorem resetControls_first_pressed_faults (t r l ri hb ho : KeyBinding)
    (n : String) (hn : firstPressedCar t r l ri hb ho = some n) :
    ∃ b, findAction (carActions t r l ri hb ho) n = some b ∧
      b.isPressed = true ∧
      resetControlsCar (carActions t r l ri hb ho) =
        (setAction (carActions t r l ri hb ho) n
          { b with isPressed := false, justPressed := false,
                   justReleased := true },
         some "undefined action: brake") := by
  unfold firstPressedCar at hn
  split_ifs at hn with h1 h2 h3 h4 h5 h6 <;>
    first
      | exact (Option.noConfusion hn)
      | (obtain rfl := Option.some.inj hn
         refine ⟨_, rfl, by assumption, ?_⟩
         simp_all [resetControlsCar, resetControlsCar.go, triggerActionCar,
           carOnInputChange, getAction, findAction, setAction, carActions,
           exceptBind_ok, exceptBind_error, exceptMap_error])

/-- C9 as amended: `resetControls` walks the actions in table order;
actions that are not pressed are left entirely unchanged, but at the
first pressed action the `justReleased` edge is raised and the
`onInputChange` observer (`Car.onInputChange`) faults on the undefined
`brake` action, so the error propagates out of `resetControls`: that
action ends with `isPressed = false` but `justReleased` still set (the
flag-clearing after the observer call never runs), every other action is
untouched (the result table is a single-entry `setAction`), and later
pressed actions are never reset.  Only when no action is pressed does
`resetControls` complete, changing nothing. -/
theorem resetControls_amended (t r l ri hb ho : KeyBinding) :
    (firstPressedCar t r l ri hb ho = none →
      resetControlsCar (carActions t r l ri hb ho) =
        (carActions t r l ri hb ho, none)) ∧
    (∀ n, firstPressedCar t r l ri hb ho = some n →
      ∃ b, findAction (carActions t r l ri hb ho) n = some b ∧
        b.isPressed = true ∧
        resetControlsCar (carActions t r l ri hb ho) =
          (setAction (carActions t r l ri hb ho) n
            { b with isPressed := false, justPressed := false,
                     justReleased := true },
           some "undefined action: brake")) :=
  ⟨resetControls_no_pressed t r l ri hb ho,
   fun _ => resetControls_first_pressed_faults t r l ri hb ho _⟩

/-- Witness for `resetControls_amended`: on the freshly constructed table
(nothing pressed) `resetControls` completes and changes nothing. -/
theorem resetControls_amended_witness :
    resetControlsCar carActionsInit = (carActionsInit, none) :=
  (resetControls_amended (KeyBinding.mk1 "KeyW") (KeyBinding.mk1 "KeyS")
    (KeyBinding.mk1 "KeyA") (KeyBinding.mk1 "KeyD") (KeyBinding.mk1 "Space")
    (KeyBinding.mk1 "KeyH")).1 rfl

/-- Counterexample to C9: with `throttle` pressed, `resetControls` raises
an error (so it does not complete normally), and afterwards the throttle
binding's `justReleased` flag is left set instead of cleared. -/
theorem resetControls_faults_on_pressed :
    (resetControlsCar (carActions ⟨["KeyW"], true, false, false⟩
      (KeyBinding.mk1 "KeyS") (KeyBinding.mk1 "KeyA") (KeyBinding.mk1 "KeyD")
      (KeyBinding.mk1 "Space") (KeyBinding.mk1 "KeyH"))).2 =
        some "undefined action: brake" ∧
    findAction (resetControlsCar (carActions ⟨["KeyW"], true, false, false⟩
      (KeyBinding.mk1 "KeyS") (KeyBinding.mk1 "KeyA") (KeyBinding.mk1 "KeyD")
      (KeyBinding.mk1 "Space") (KeyBinding.mk1 "KeyH"))).1 "throttle" =
        some ⟨["KeyW"], false, false, true⟩ :=
  ⟨rfl, rfl⟩
